import Mathlib

/-!
Shallow embedding of the EAS-Backend authentication server (`src/server.js`):
user registration, login with JWT issuance, logout, and the JWT
authentication / admin-authorization middleware guarding the `/user` and
`/admin` routes.

External collaborators are modelled executably:
* bcryptjs: `bcryptHash` / `bcryptCompare` model `bcrypt.hash(p, 10)` and
  `bcrypt.compare` as a deterministic one-way-style tagging (the random salt
  is abstracted away; only `compare (hash p) p = true` and injectivity-style
  behaviour matter to the handlers).
* jsonwebtoken: `jwtSign` / `jwtVerify` model `jwt.sign(payload, secret,
  expiresIn 1h)` and `jwt.verify(token, secret)`: the compact serialized
  form is a dot-separated rendering (standing in for base64url segments),
  the signature is a keyed hash recomputed and compared on verification,
  and expiry is checked exactly as jsonwebtoken does (`now >= exp` rejects).
* Prisma user store: a list of user records with an auto-incremented id and
  `findUnique` / `create` with a unique-email constraint.
-/

namespace EAS

/-- JavaScript falsiness of an optional string field of `req.body`:
`undefined` (`none`) and the empty string are falsy, as in `!email`. -/
def isFalsy : Option String → Bool
  | none => true
  | some s => s.isEmpty

/-- A persisted user record (Prisma `user` model): id, email, stored
bcrypt hash (field named `password` in the schema), and role. -/
structure User where
  id : Nat
  email : String
  password : String
  role : String
deriving DecidableEq, Repr

/-- The credential store: persisted user rows plus the auto-increment
counter for generated ids. -/
structure ServerState where
  users : List User
  nextId : Nat
deriving DecidableEq, Repr

/-- The store of a freshly started server: no users, ids start at 1. -/
def initialState : ServerState := ⟨[], 1⟩

/-- Model of `prisma.user.findUnique (where: (email))` on the store. -/
def findUnique (st : ServerState) (email : String) : Option User :=
  st.users.find? (fun u => u.email == email)

/-- Model of `bcrypt.hash(password, 10)`: a deterministic tagging of the
password (the per-call random salt is abstracted away). -/
def bcryptHash (password : String) : String :=
  "$2b$10$" ++ password

/-- Model of `bcrypt.compare(password, hash)`: recompute and compare. -/
def bcryptCompare (password hash : String) : Bool :=
  hash == bcryptHash password

example : bcryptCompare "pw1" (bcryptHash "pw1") = true := by decide
example : bcryptCompare "pw2" (bcryptHash "pw1") = false := by decide

/-! ### JavaScript `String.prototype.split` with a one-character separator

`req.headers.authorization?.split(" ")[1]` is the only string processing the
server performs itself; we model `split` faithfully at the character-list
level (`"".split  ` gives `[""]`, separators at the ends give empty
segments, exactly as in JS). -/

/-- Split a character list at every occurrence of `c` (JS `split`). -/
def splitCharList (c : Char) : List Char → List (List Char)
  | [] => [[]]
  | x :: xs =>
    match splitCharList c xs with
    | [] => [[]]
    | h :: t => if x = c then [] :: h :: t else (x :: h) :: t

/-- JS `s.split(c)` for a one-character separator `c`. -/
def jsSplit (c : Char) (s : String) : List String :=
  (splitCharList c s.data).map String.mk

example : jsSplit ' ' "Bearer tok" = ["Bearer", "tok"] := by decide
example : jsSplit ' ' "Bearer" = ["Bearer"] := by decide
example : jsSplit ' ' "" = [""] := by decide
example : jsSplit ' ' "a  b" = ["a", "", "b"] := by decide

/-! ### Compact token serialization (stand-in for the JOSE base64url form)

`jsonwebtoken` transports the payload and signature as dot-separated
base64url segments.  The model renders numbers as decimal digit strings and
the role verbatim, so a round trip holds whenever the role contains no
separator — which base64url guarantees in the real library. -/

/-- The decimal digit character for `d` (`0`–`9` for `d < 10`). -/
def digitChar (d : Nat) : Char := Char.ofNat (48 + d)

/-- Inverse of `digitChar` on digit characters. -/
def charDigit (c : Char) : Nat := c.toNat - 48

/-- Is `c` a decimal digit character? -/
def isDigitChar (c : Char) : Bool := 48 ≤ c.toNat && c.toNat ≤ 57

/-- Little-endian base-10 digits, fuel-based so that it computes by kernel
reduction; proved equal to `Nat.digits 10` below. -/
def natDigitsAux : Nat → Nat → List Nat
  | 0, _ => []
  | fuel + 1, n => if n = 0 then [] else n % 10 :: natDigitsAux fuel (n / 10)

/-- Little-endian base-10 digits of `n`. -/
def natDigits (n : Nat) : List Nat := natDigitsAux n n

/-- Render a natural number as its (little-endian: any injective rendering
serves the model) digit string. -/
def natEncode (n : Nat) : List Char := (natDigits n).map digitChar

/-- Parse a digit string back to a natural number; `none` on any
non-digit character. -/
def natDecode (l : List Char) : Option Nat :=
  if l.all isDigitChar then some (Nat.ofDigits 10 (l.map charDigit)) else none

example : natDecode (natEncode 360) = some 360 := by decide
example : natDecode ['x'] = none := by decide

/-! ### Tokens: `jwt.sign` / `jwt.verify` -/

/-- The claim set of an issued token: the custom claims
`(userId, role)` from `jwt.sign((userId, role), …)` plus the
registered claims `iat` and `exp` (seconds) added by the library. -/
structure JwtPayload where
  userId : Nat
  role : String
  iat : Nat
  exp : Nat
deriving DecidableEq, Repr

/-- A token: its payload together with the keyed signature over it. -/
structure Jwt where
  payload : JwtPayload
  sig : Nat
deriving DecidableEq, Repr

/-- A simple executable keyed hash standing in for HMAC-SHA256: the
handlers only ever recompute it and compare, so no property beyond
determinism is relied on. -/
def strHash (l : List Char) : Nat :=
  l.foldl (fun a c => a * 131 + c.toNat + 1) 7

/-- The signature of payload `p` under the server secret. -/
def hashSig (secret : String) (p : JwtPayload) : Nat :=
  strHash (secret.data ++ '|' :: natEncode p.userId ++ '|' :: p.role.data
    ++ '|' :: natEncode p.iat ++ '|' :: natEncode p.exp)

/-- Model of `jwt.sign((userId, role), secret, (expiresIn: "1h"))` at clock
time `now` (seconds): `iat = now`, `exp = now + 3600`. -/
def jwtSign (secret : String) (now : Nat) (userId : Nat) (role : String) : Jwt :=
  let p : JwtPayload := ⟨userId, role, now, now + 3600⟩
  ⟨p, hashSig secret p⟩

/-- Verification failures distinguished by `jsonwebtoken`. -/
inductive JwtError where
  | malformed
  | invalidSignature
  | expired
deriving DecidableEq, Repr

/-- Verify a structurally intact token, as `jwt.verify` does once the
compact form is decoded: recompute the signature first, then check
expiry (`jsonwebtoken` rejects once `now ≥ exp`). -/
def jwtVerify (secret : String) (now : Nat) (t : Jwt) : Except JwtError JwtPayload :=
  if t.sig ≠ hashSig secret t.payload then .error .invalidSignature
  else if t.payload.exp ≤ now then .error .expired
  else .ok t.payload

/-- Compact serialized form of a token (character list). -/
def jwtEncodeList (t : Jwt) : List Char :=
  natEncode t.payload.userId ++ '.' :: t.payload.role.data
    ++ '.' :: natEncode t.payload.iat ++ '.' :: natEncode t.payload.exp
    ++ '.' :: natEncode t.sig

/-- Compact serialized form of a token, as carried in the
`Authorization: Bearer <token>` header. -/
def jwtEncode (t : Jwt) : String := ⟨jwtEncodeList t⟩

/-- Decode the compact form; `none` on anything malformed. -/
def jwtDecode (s : String) : Option Jwt :=
  match splitCharList '.' s.data with
  | [uid, role, iat, exp, sg] =>
    match natDecode uid, natDecode iat, natDecode exp, natDecode sg with
    | some u, some i, some e, some g => some ⟨⟨u, ⟨role⟩, i, e⟩, g⟩
    | _, _, _, _ => none
  | _ => none

/-- Model of `jwt.verify(tokenString, secret)` on the wire form: decode, then
recompute the signature and check expiry. -/
def jwtVerifyStr (secret : String) (now : Nat) (s : String) :
    Except JwtError JwtPayload :=
  match jwtDecode s with
  | none => .error .malformed
  | some t => jwtVerify secret now t

example : jwtDecode (jwtEncode (jwtSign "k" 5 1 "admin")) = some (jwtSign "k" 5 1 "admin") := by decide
example : jwtVerifyStr "k" 6 (jwtEncode (jwtSign "k" 5 1 "admin")) = .ok ⟨1, "admin", 5, 3605⟩ := rfl
example : jwtVerifyStr "k2" 6 (jwtEncode (jwtSign "k" 5 1 "admin")) = .error .invalidSignature := rfl
example : jwtVerifyStr "k" 3605 (jwtEncode (jwtSign "k" 5 1 "admin")) = .error .expired := rfl
example : jwtVerifyStr "k" 0 "garbage" = .error .malformed := rfl

/-! ### HTTP responses and the route handlers -/

/-- A response body: plain text (`res.send` / `res.sendStatus`), or a JSON
object rendered as its field list in serialization order (`res.json`). -/
inductive Body where
  | text : String → Body
  | jsonFields : List (String × String) → Body
deriving DecidableEq, Repr

/-- An HTTP response: status code and body.  `res.sendStatus(n)` sends the
standard reason phrase as its text body. -/
structure Response where
  status : Nat
  body : Body
deriving DecidableEq, Repr

/-- The JSON serialization of a Prisma user record, as `res.json(user)`
produces it: every scalar field of the row, the stored hash included. -/
def userToJson (u : User) : List (String × String) :=
  [("id", toString u.id), ("email", u.email),
   ("password", u.password), ("role", u.role)]

/-- Observable effects on the hasher and the credential store, in the
order the handler performs them. -/
inductive Event where
  | hashPassword
  | storeCreate
  | storeFindUnique
deriving DecidableEq, Repr

/-- Library exceptions the login handler does not catch (the request then
produces no HTTP response): Prisma rejects `findUnique` when the unique
`where` argument is `undefined`; bcryptjs rejects `compare` when the
password is not a string. -/
inductive LibError where
  | prismaMissingWhereArg
  | bcryptIllegalArgs
deriving DecidableEq, Repr

/-- Defaulting `role || "user"`: the role stored at creation — the request's `role`
field unless it is JS-falsy (absent or empty). -/
def roleOf : Option String → String
  | some r => if r.isEmpty then "user" else r
  | none => "user"

/-- Handler of `POST /register`: validate presence of `email` and `password`, hash the
password, then `prisma.user.create` (the unique-email constraint turns a
duplicate into the caught error → 400 "User already exists"); on success
respond `201` with the created row serialized whole. -/
def register (st : ServerState) (email password role : Option String) :
    ServerState × Response × List Event :=
  if isFalsy email || isFalsy password then
    (st, ⟨400, .text "Email and password are required"⟩, [])
  else
    let e := email.getD ""
    let hashedPassword := bcryptHash (password.getD "")
    if (findUnique st e).isSome then
      (st, ⟨400, .text "User already exists"⟩, [.hashPassword, .storeCreate])
    else
      let u : User := ⟨st.nextId, e, hashedPassword, roleOf role⟩
      (⟨st.users ++ [u], st.nextId + 1⟩,
       ⟨201, .jsonFields (userToJson u)⟩, [.hashPassword, .storeCreate])

/-- Handler of `POST /login`: no input validation — straight to
`prisma.user.findUnique`, then `bcrypt.compare`; a missing user or a failed
comparison both yield the one `401` response; on success sign a token over
`(userId, role)` with a 1-hour expiry and return it as `(token)` JSON. -/
def login (st : ServerState) (secret : String) (now : Nat)
    (email password : Option String) : Except LibError Response × List Event :=
  match email with
  | none => (.error .prismaMissingWhereArg, [])
  | some e =>
    match findUnique st e with
    | none => (.ok ⟨401, .text "Invalid email or password"⟩, [.storeFindUnique])
    | some u =>
      match password with
      | none => (.error .bcryptIllegalArgs, [.storeFindUnique])
      | some p =>
        if bcryptCompare p u.password then
          (.ok ⟨200, .jsonFields [("token", jwtEncode (jwtSign secret now u.id u.role))]⟩,
           [.storeFindUnique, .hashPassword])
        else
          (.ok ⟨401, .text "Invalid email or password"⟩,
           [.storeFindUnique, .hashPassword])

/-- Handler of `POST /logout`: ignores the request entirely and answers
`res.sendStatus(200)`; the store is not touched. -/
def logout (st : ServerState) (_header : Option String)
    (_body : List (String × String)) : ServerState × Response :=
  (st, ⟨200, .text "OK"⟩)

/-- Extraction `req.headers.authorization?.split(" ")[1]`: `none` when the header is
absent or has no second word. -/
def extractToken (header : Option String) : Option String :=
  match header with
  | none => none
  | some h => (jsSplit ' ' h)[1]?

/-- Outcome of a middleware: either it already answered (`res.sendStatus`),
or it called `next()` — for `authenticateJWT`, with `req.user` set to the
decoded claims. -/
inductive AuthResult where
  | halted : Response → AuthResult
  | proceeded : JwtPayload → AuthResult
deriving DecidableEq, Repr

/-- The `authenticateJWT` middleware: `401` when no token string is
present (`if (token)` — the empty string is falsy too), `403` when
`jwt.verify` fails for any reason, otherwise `req.user := claims` and
`next()`. -/
def authenticateJWT (secret : String) (now : Nat) (header : Option String) :
    AuthResult :=
  let token := extractToken header
  if isFalsy token then .halted ⟨401, .text "Unauthorized"⟩
  else
    match jwtVerifyStr secret now (token.getD "") with
    | .error _ => .halted ⟨403, .text "Forbidden"⟩
    | .ok u => .proceeded u

/-- The `authorizeAdmin` middleware: `403` unless `req.user.role` is
exactly `"admin"`; pure gate, no effects. -/
def authorizeAdmin (u : JwtPayload) : Option Response :=
  if u.role ≠ "admin" then some ⟨403, .text "Forbidden"⟩ else none

/-- Handler of `GET /user`: `authenticateJWT` then the fixed acknowledgment. -/
def userRoute (secret : String) (now : Nat) (header : Option String) : Response :=
  match authenticateJWT secret now header with
  | .halted r => r
  | .proceeded _ => ⟨200, .text "Welcome User"⟩

/-- Handler of `GET /admin`: `authenticateJWT`, then `authorizeAdmin`, then the fixed
acknowledgment. -/
def adminRoute (secret : String) (now : Nat) (header : Option String) : Response :=
  match authenticateJWT secret now header with
  | .halted r => r
  | .proceeded u =>
    match authorizeAdmin u with
    | some r => r
    | none => ⟨200, .text "Welcome Admin"⟩

/-! ### Supporting lemmas -/

theorem splitCharList_ne_nil (c : Char) (l : List Char) : splitCharList c l ≠ [] := by
  cases l with
  | nil => simp [splitCharList]
  | cons x xs =>
    simp only [splitCharList]
    cases h : splitCharList c xs with
    | nil => simp
    | cons h t =>
      by_cases hx : x = c <;> simp [hx]

theorem splitCharList_append_cons (c : Char) (l m : List Char)
    (h : ∀ x ∈ l, x ≠ c) :
    splitCharList c (l ++ c :: m) = l :: splitCharList c m := by
  induction l with
  | nil =>
    simp only [List.nil_append, splitCharList]
    cases hs : splitCharList c m with
    | nil => exact absurd hs (splitCharList_ne_nil c m)
    | cons a t => simp
  | cons x xs ih =>
    have hx : x ≠ c := h x (List.mem_cons_self x xs)
    have ih' := ih (fun y hy => h y (List.mem_cons_of_mem x hy))
    simp [List.cons_append, splitCharList, List.append_eq, ih', hx]

theorem splitCharList_of_forall_ne (c : Char) (l : List Char)
    (h : ∀ x ∈ l, x ≠ c) : splitCharList c l = [l] := by
  induction l with
  | nil => simp [splitCharList]
  | cons x xs ih =>
    have hx : x ≠ c := h x (List.mem_cons_self x xs)
    have ih' := ih (fun y hy => h y (List.mem_cons_of_mem x hy))
    simp only [splitCharList, ih', if_neg hx]

theorem toNat_digitChar (d : Nat) (h : d < 10) : (digitChar d).toNat = 48 + d := by
  interval_cases d <;> decide

theorem isDigitChar_digitChar (d : Nat) (h : d < 10) :
    isDigitChar (digitChar d) = true := by
  interval_cases d <;> decide

theorem charDigit_digitChar (d : Nat) (h : d < 10) :
    charDigit (digitChar d) = d := by
  interval_cases d <;> decide

theorem isDigitChar_ne_dot (c : Char) (h : isDigitChar c = true) : c ≠ '.' := by
  intro hc; subst hc; simp [isDigitChar] at h

theorem isDigitChar_ne_space (c : Char) (h : isDigitChar c = true) : c ≠ ' ' := by
  intro hc; subst hc; simp [isDigitChar] at h

theorem natDigitsAux_eq (fuel : Nat) :
    ∀ n : Nat, n ≤ fuel → natDigitsAux fuel n = Nat.digits 10 n := by
  induction fuel with
  | zero =>
    intro n hn
    interval_cases n
    simp [natDigitsAux]
  | succ fuel ih =>
    intro n hn
    by_cases h0 : n = 0
    · subst h0; simp [natDigitsAux]
    · have hpos : 0 < n := Nat.pos_of_ne_zero h0
      have hdiv : n / 10 ≤ fuel := by
        have : n / 10 < n := Nat.div_lt_self hpos (by norm_num)
        omega
      simp only [natDigitsAux, if_neg h0, ih (n / 10) hdiv]
      exact (Nat.digits_def' (by norm_num) hpos).symm

theorem natDigits_eq (n : Nat) : natDigits n = Nat.digits 10 n :=
  natDigitsAux_eq n n (Nat.le_refl n)

theorem mem_natDigits_lt (n d : Nat) (h : d ∈ natDigits n) : d < 10 := by
  rw [natDigits_eq] at h
  exact Nat.digits_lt_base (by norm_num) h

theorem mem_natEncode_isDigit (n : Nat) (c : Char) (h : c ∈ natEncode n) :
    isDigitChar c = true := by
  simp only [natEncode, List.mem_map] at h
  obtain ⟨d, hd, rfl⟩ := h
  exact isDigitChar_digitChar d (mem_natDigits_lt n d hd)

theorem natDecode_natEncode (n : Nat) : natDecode (natEncode n) = some n := by
  have hall : (natEncode n).all isDigitChar = true := by
    rw [List.all_eq_true]
    exact fun c hc => mem_natEncode_isDigit n c hc
  have hmap : (natEncode n).map charDigit = natDigits n := by
    simp only [natEncode, List.map_map]
    have : ∀ d ∈ natDigits n, (charDigit ∘ digitChar) d = id d := by
      intro d hd
      exact charDigit_digitChar d (mem_natDigits_lt n d hd)
    rw [List.map_congr_left this, List.map_id]
  rw [natDecode, if_pos hall, hmap, natDigits_eq, Nat.ofDigits_digits]

theorem mem_natEncode_ne_dot (n : Nat) (c : Char) (h : c ∈ natEncode n) : c ≠ '.' :=
  isDigitChar_ne_dot c (mem_natEncode_isDigit n c h)

theorem mem_natEncode_ne_space (n : Nat) (c : Char) (h : c ∈ natEncode n) : c ≠ ' ' :=
  isDigitChar_ne_space c (mem_natEncode_isDigit n c h)

theorem splitCharList_jwtEncodeList (t : Jwt)
    (hrole : ∀ ch ∈ t.payload.role.data, ch ≠ '.') :
    splitCharList '.' (jwtEncodeList t) =
      [natEncode t.payload.userId, t.payload.role.data, natEncode t.payload.iat,
       natEncode t.payload.exp, natEncode t.sig] := by
  have e : jwtEncodeList t = natEncode t.payload.userId ++ '.' :: (t.payload.role.data
      ++ '.' :: (natEncode t.payload.iat ++ '.' :: (natEncode t.payload.exp
      ++ '.' :: natEncode t.sig))) := by
    simp only [jwtEncodeList, List.append_assoc, List.cons_append]
  rw [e, splitCharList_append_cons _ _ _ (fun c hc => mem_natEncode_ne_dot _ c hc),
      splitCharList_append_cons _ _ _ hrole,
      splitCharList_append_cons _ _ _ (fun c hc => mem_natEncode_ne_dot _ c hc),
      splitCharList_append_cons _ _ _ (fun c hc => mem_natEncode_ne_dot _ c hc),
      splitCharList_of_forall_ne _ _ (fun c hc => mem_natEncode_ne_dot _ c hc)]

/-- The compact form decodes back to the token it came from, provided the
role claim avoids the segment separator (as base64url does in the real
token format). -/
theorem jwtDecode_jwtEncode (t : Jwt)
    (hrole : ∀ ch ∈ t.payload.role.data, ch ≠ '.') :
    jwtDecode (jwtEncode t) = some t := by
  show jwtDecode ⟨jwtEncodeList t⟩ = some t
  unfold jwtDecode
  rw [show (String.mk (jwtEncodeList t)).data = jwtEncodeList t from rfl,
      splitCharList_jwtEncodeList t hrole]
  simp [natDecode_natEncode]

theorem mem_jwtEncodeList_ne_space (t : Jwt)
    (hrole : ∀ ch ∈ t.payload.role.data, ch ≠ ' ') :
    ∀ ch ∈ jwtEncodeList t, ch ≠ ' ' := by
  intro ch hch
  simp only [jwtEncodeList, List.cons_append, List.append_assoc, List.mem_append,
    List.mem_cons] at hch
  rcases hch with h | h | h | h | h | h | h | h | h <;>
    first
      | (exact mem_natEncode_ne_space _ _ h)
      | (exact hrole _ h)
      | (subst h; decide)

/-- Application of `split(" ")[1]` to a well-formed `Authorization: Bearer <token>` header
yields the token, provided the token itself contains no space (as the
compact token form never does). -/
theorem extractToken_bearer (tok : String) (h : ∀ ch ∈ tok.data, ch ≠ ' ') :
    extractToken (some ("Bearer " ++ tok)) = some tok := by
  have hdata : ("Bearer " ++ tok).data = "Bearer".data ++ ' ' :: tok.data := by
    rw [String.data_append]; rfl
  have hbearer : ∀ x ∈ "Bearer".data, x ≠ ' ' := by decide
  show (List.map String.mk (splitCharList ' ' ("Bearer " ++ tok).data))[1]? = some tok
  rw [hdata, splitCharList_append_cons _ _ _ hbearer,
      splitCharList_of_forall_ne _ _ h]
  rfl

/-- On a well-formed bearer header the middleware reduces to structural
token verification (the role claim avoiding separator and space, as the
real base64url segments always do). -/
theorem authenticateJWT_bearer (secret : String) (now : Nat) (t : Jwt)
    (hdot : ∀ ch ∈ t.payload.role.data, ch ≠ '.')
    (hspace : ∀ ch ∈ t.payload.role.data, ch ≠ ' ') :
    authenticateJWT secret now (some ("Bearer " ++ jwtEncode t)) =
      match jwtVerify secret now t with
      | .error _ => .halted ⟨403, .text "Forbidden"⟩
      | .ok u => .proceeded u := by
  have hspace' : ∀ ch ∈ (jwtEncode t).data, ch ≠ ' ' :=
    mem_jwtEncodeList_ne_space t hspace
  have hx := extractToken_bearer (jwtEncode t) hspace'
  have hne : jwtEncode t ≠ "" := by
    intro hcontra
    have hdat : jwtEncodeList t = [] := congrArg String.data hcontra
    simp [jwtEncodeList] at hdat
  have hfalsy : isFalsy (some (jwtEncode t)) = false := by
    simp only [isFalsy]
    cases hemp : (jwtEncode t).isEmpty
    · rfl
    · exact absurd ((String.isEmpty_iff _).mp hemp) hne
  unfold authenticateJWT
  rw [hx]
  simp only [hfalsy, Bool.false_eq_true, if_false, Option.getD_some]
  unfold jwtVerifyStr
  rw [jwtDecode_jwtEncode t hdot]

theorem isFalsy_some_false (s : String) (h : s ≠ "") : isFalsy (some s) = false := by
  simp only [isFalsy]
  cases hemp : s.isEmpty
  · rfl
  · exact absurd ((String.isEmpty_iff _).mp hemp) h

theorem findUnique_eq_none_of_fresh (st : ServerState) (e : String)
    (h : ∀ u ∈ st.users, u.email ≠ e) : findUnique st e = none := by
  apply List.find?_eq_none.mpr
  intro u hu
  simp only [beq_iff_eq]
  exact h u hu

/-- Unfolding of a successful registration: the new row is appended with
the generated id, the hash and the defaulted role, and the whole row comes
back serialized in the 201 response. -/
theorem register_success (st : ServerState) (e p : String) (r : Option String)
    (he : e ≠ "") (hp : p ≠ "") (hfresh : ∀ u ∈ st.users, u.email ≠ e) :
    register st (some e) (some p) r =
      (⟨st.users ++ [⟨st.nextId, e, bcryptHash p, roleOf r⟩], st.nextId + 1⟩,
       ⟨201, .jsonFields (userToJson ⟨st.nextId, e, bcryptHash p, roleOf r⟩)⟩,
       [.hashPassword, .storeCreate]) := by
  unfold register
  simp [isFalsy_some_false e he, isFalsy_some_false p hp,
        findUnique_eq_none_of_fresh st e hfresh]

/-- The lookup after a fresh insertion finds exactly the inserted row. -/
theorem findUnique_after_insert (st : ServerState) (e : String) (u : User)
    (hfresh : ∀ v ∈ st.users, v.email ≠ e) (hu : u.email = e) :
    findUnique ⟨st.users ++ [u], st.nextId + 1⟩ e = some u := by
  unfold findUnique
  rw [List.find?_append]
  have h1 : st.users.find? (fun v => v.email == e) = none :=
    findUnique_eq_none_of_fresh st e hfresh
  rw [h1]
  simp [List.find?, hu]

/-- Unfolding of a successful login: the signed token for the found row's
id and role, with a 1-hour expiry, comes back as the `token` JSON field. -/
theorem login_success (st : ServerState) (secret : String) (now : Nat)
    (e p : String) (u : User)
    (hfound : findUnique st e = some u)
    (hcmp : bcryptCompare p u.password = true) :
    login st secret now (some e) (some p) =
      (.ok ⟨200, .jsonFields [("token", jwtEncode (jwtSign secret now u.id u.role))]⟩,
       [.storeFindUnique, .hashPassword]) := by
  unfold login
  simp [hfound, hcmp]

/-- Verification of a token signed with the same secret reduces to the
expiry test. -/
theorem jwtVerify_jwtSign (secret : String) (now v : Nat) (uid : Nat) (role : String) :
    jwtVerify secret v (jwtSign secret now uid role) =
      if now + 3600 ≤ v then .error .expired else .ok ⟨uid, role, now, now + 3600⟩ := by
  unfold jwtVerify jwtSign
  simp

/-- The middleware on a bearer header carrying a token signed with the
server secret: expired → 403, otherwise the claims are attached. -/
theorem authenticateJWT_signed (secret : String) (now v uid : Nat) (role : String)
    (hdot : ∀ ch ∈ role.data, ch ≠ '.') (hspace : ∀ ch ∈ role.data, ch ≠ ' ') :
    authenticateJWT secret v (some ("Bearer " ++ jwtEncode (jwtSign secret now uid role))) =
      if now + 3600 ≤ v then .halted ⟨403, .text "Forbidden"⟩
      else .proceeded ⟨uid, role, now, now + 3600⟩ := by
  rw [authenticateJWT_bearer secret v (jwtSign secret now uid role) hdot hspace,
      jwtVerify_jwtSign]
  by_cases h : now + 3600 ≤ v <;> simp [h]

theorem roleOf_some (r : String) (hr : r ≠ "") : roleOf (some r) = r := by
  cases hemp : r.isEmpty
  · simp [roleOf, hemp]
  · exact absurd ((String.isEmpty_iff _).mp hemp) hr

/-! ### The claims -/

/-- C1: the spec requires that a successful registration response carry
only the created user's public fields and never the password hash.  The
handler replies `res.status(201).json(user)` with the whole stored row:
at the concrete request (email "a@x.com", password "pw1") the 201 body
contains the stored bcrypt hash under its "password" key, so the code
exposes exactly what the spec forbids. -/
theorem C1_register_response_contains_password_hash :
    ∃ fields, (register initialState (some "a@x.com") (some "pw1") none).2.1 =
      ⟨201, Body.jsonFields fields⟩ ∧ ("password", bcryptHash "pw1") ∈ fields := by
  refine ⟨_, rfl, ?_⟩
  decide

/-- C2 (counterexample): the Login handler performs no missing-field
validation.  At the concrete request (email "a@x.com", password absent)
against the empty store, the handler consults the credential store and
answers 401 "Invalid email or password" — not the ValidationError
response the claim requires, and only after a store access. -/
theorem C2_counterexample_login_skips_validation :
    login initialState "secret" 0 (some "a@x.com") none =
      (.ok ⟨401, .text "Invalid email or password"⟩, [Event.storeFindUnique]) ∧
    (⟨401, .text "Invalid email or password"⟩ : Response) ≠
      ⟨400, .text "Email and password are required"⟩ :=
  ⟨rfl, by decide⟩

/-- C2 (amended): Registration with missing email or password fails with
the ValidationError response before any hashing or store access (empty
effect trace); Login performs no such validation — it never produces the
ValidationError response, and whenever its email field is present the
credential store is consulted. -/
theorem C2_amended_register_validates_login_does_not
    (st : ServerState) (secret : String) (now : Nat)
    (email password role : Option String)
    (hmiss : (isFalsy email || isFalsy password) = true) :
    register st email password role =
      (st, ⟨400, .text "Email and password are required"⟩, []) ∧
    (login st secret now email password).1 ≠
      .ok ⟨400, .text "Email and password are required"⟩ ∧
    (∀ e, email = some e →
      Event.storeFindUnique ∈ (login st secret now email password).2) := by
  refine ⟨by simp [register, hmiss], ?_, ?_⟩
  · cases email with
    | none => simp [login]
    | some e =>
      cases hfind : findUnique st e with
      | none => simp [login, hfind]
      | some u =>
        cases password with
        | none => simp [login, hfind]
        | some p =>
          by_cases hcmp : bcryptCompare p u.password <;> simp [login, hfind, hcmp]
  · intro e hemail
    subst hemail
    cases hfind : findUnique st e with
    | none => simp [login, hfind]
    | some u =>
      cases password with
      | none => simp [login, hfind]
      | some p =>
        by_cases hcmp : bcryptCompare p u.password <;> simp [login, hfind, hcmp]

/-- C2 witness for the amended theorem, at the concrete request with a
present email and an absent password. -/
theorem C2_amended_witness :
    register initialState (some "a@x.com") none none =
      (initialState, ⟨400, Body.text "Email and password are required"⟩, []) ∧
    Event.storeFindUnique ∈ (login initialState "secret" 0 (some "a@x.com") none).2 :=
  ⟨(C2_amended_register_validates_login_does_not initialState "secret" 0
      (some "a@x.com") none none (by decide)).1,
   (C2_amended_register_validates_login_does_not initialState "secret" 0
      (some "a@x.com") none none (by decide)).2.2 "a@x.com" rfl⟩

/-- C3: for any valid (non-empty) email and password with that email not
yet registered, Registration answers 201 and a subsequent Login with the
same credentials against the updated store answers 200 carrying a token. -/
theorem C3_register_then_login_succeeds
    (st : ServerState) (e p : String) (r : Option String)
    (secret : String) (now : Nat)
    (he : e ≠ "") (hp : p ≠ "") (hfresh : ∀ u ∈ st.users, u.email ≠ e) :
    (register st (some e) (some p) r).2.1.status = 201 ∧
    ∃ tok, login (register st (some e) (some p) r).1 secret now (some e) (some p) =
      (.ok ⟨200, .jsonFields [("token", tok)]⟩, [.storeFindUnique, .hashPassword]) := by
  have hreg := register_success st e p r he hp hfresh
  constructor
  · rw [hreg]
  · refine ⟨jwtEncode (jwtSign secret now st.nextId (roleOf r)), ?_⟩
    rw [hreg]
    exact login_success _ secret now e p ⟨st.nextId, e, bcryptHash p, roleOf r⟩
      (findUnique_after_insert st e _ hfresh rfl)
      (by simp [bcryptCompare])

/-- C3 witness at the concrete pair ("a@x.com", "pw1") on the empty store. -/
theorem C3_witness :
    (register initialState (some "a@x.com") (some "pw1") none).2.1.status = 201 ∧
    ∃ tok, login (register initialState (some "a@x.com") (some "pw1") none).1
        "secret" 0 (some "a@x.com") (some "pw1") =
      (.ok ⟨200, .jsonFields [("token", tok)]⟩, [.storeFindUnique, .hashPassword]) :=
  C3_register_then_login_succeeds initialState "a@x.com" "pw1" none "secret" 0
    (by decide) (by decide) (by intro u hu; exact absurd hu (List.not_mem_nil u))

/-- C4: a login that fails — because the email is unknown, or because the
password fails hash verification against the stored hash — always gets
the one identical 401 response, so the two causes are indistinguishable
to the caller. -/
theorem C4_login_failures_indistinguishable
    (st : ServerState) (secret : String) (now : Nat) (e p : String)
    (h : findUnique st e = none ∨
         ∃ u, findUnique st e = some u ∧ bcryptCompare p u.password = false) :
    (login st secret now (some e) (some p)).1 =
      .ok ⟨401, .text "Invalid email or password"⟩ := by
  rcases h with hnone | ⟨u, hu, hcmp⟩
  · simp [login, hnone]
  · simp [login, hu, hcmp]

/-- C4 witness: a non-existent email and a wrong password for a stored
user produce (by the theorem, applied once per cause) that same response. -/
theorem C4_witness :
    (login initialState "secret" 0 (some "a@x.com") (some "pw1")).1 =
      .ok ⟨401, Body.text "Invalid email or password"⟩ ∧
    (login (register initialState (some "a@x.com") (some "pw1") none).1
        "secret" 0 (some "a@x.com") (some "wrong")).1 =
      .ok ⟨401, Body.text "Invalid email or password"⟩ :=
  ⟨C4_login_failures_indistinguishable initialState "secret" 0 "a@x.com" "pw1"
      (Or.inl rfl),
   C4_login_failures_indistinguishable _ "secret" 0 "a@x.com" "wrong"
      (Or.inr ⟨⟨1, "a@x.com", bcryptHash "pw1", "user"⟩, rfl, by decide⟩)⟩

/-- C5: the middleware answers 401 Unauthorized when no token string is
presented (header absent, no second word after the scheme, or an empty
token), 403 Forbidden whenever `jwt.verify` fails (bad signature, expiry,
or a malformed token), and otherwise attaches the decoded claims and lets
the request proceed; both protected routes return the middleware's
response unchanged when it halts, so no handler logic runs first. -/
theorem C5_authenticateJWT_contract (secret : String) (now : Nat)
    (header : Option String) :
    (isFalsy (extractToken header) = true →
      authenticateJWT secret now header = .halted ⟨401, .text "Unauthorized"⟩ ∧
      userRoute secret now header = ⟨401, .text "Unauthorized"⟩ ∧
      adminRoute secret now header = ⟨401, .text "Unauthorized"⟩) ∧
    (∀ s, extractToken header = some s → isFalsy (some s) = false →
      (∀ err, jwtVerifyStr secret now s = .error err →
        authenticateJWT secret now header = .halted ⟨403, .text "Forbidden"⟩ ∧
        userRoute secret now header = ⟨403, .text "Forbidden"⟩ ∧
        adminRoute secret now header = ⟨403, .text "Forbidden"⟩) ∧
      (∀ u, jwtVerifyStr secret now s = .ok u →
        authenticateJWT secret now header = .proceeded u)) := by
  constructor
  · intro hf
    have h1 : authenticateJWT secret now header = .halted ⟨401, .text "Unauthorized"⟩ := by
      simp [authenticateJWT, hf]
    exact ⟨h1, by simp [userRoute, h1], by simp [adminRoute, h1]⟩
  · intro s hs hsne
    constructor
    · intro err herr
      have h1 : authenticateJWT secret now header = .halted ⟨403, .text "Forbidden"⟩ := by
        simp [authenticateJWT, hs, hsne, herr]
      exact ⟨h1, by simp [userRoute, h1], by simp [adminRoute, h1]⟩
    · intro u hok
      simp [authenticateJWT, hs, hsne, hok]

/-- C5 witness: with no Authorization header the middleware and both
protected routes answer 401. -/
theorem C5_witness :
    authenticateJWT "secret" 0 none = .halted ⟨401, Body.text "Unauthorized"⟩ ∧
    userRoute "secret" 0 none = ⟨401, Body.text "Unauthorized"⟩ ∧
    adminRoute "secret" 0 none = ⟨401, Body.text "Unauthorized"⟩ :=
  (C5_authenticateJWT_contract "secret" 0 none).1 rfl

/-- C6: a correctly signed, unexpired token whose role claim is not
"admin" is turned away by the admin-only route with 403, while the very
same bearer header passes the general user route with 200. -/
theorem C6_non_admin_token_roles (secret : String) (v : Nat) (t : Jwt)
    (hdot : ∀ ch ∈ t.payload.role.data, ch ≠ '.')
    (hspace : ∀ ch ∈ t.payload.role.data, ch ≠ ' ')
    (hsig : t.sig = hashSig secret t.payload)
    (hexp : v < t.payload.exp)
    (hrole : t.payload.role ≠ "admin") :
    adminRoute secret v (some ("Bearer " ++ jwtEncode t)) = ⟨403, .text "Forbidden"⟩ ∧
    userRoute secret v (some ("Bearer " ++ jwtEncode t)) = ⟨200, .text "Welcome User"⟩ := by
  have hver : jwtVerify secret v t = .ok t.payload := by
    unfold jwtVerify
    rw [if_neg (by simp [hsig]), if_neg (by omega)]
  have hauth : authenticateJWT secret v (some ("Bearer " ++ jwtEncode t)) =
      .proceeded t.payload := by
    rw [authenticateJWT_bearer secret v t hdot hspace, hver]
  exact ⟨by simp [adminRoute, hauth, authorizeAdmin, hrole],
         by simp [userRoute, hauth]⟩

/-- C6 witness: a signed token with role "user" is rejected on `/admin`
and accepted on `/user`. -/
theorem C6_witness :
    adminRoute "secret" 1 (some ("Bearer " ++ jwtEncode (jwtSign "secret" 0 1 "user"))) =
      ⟨403, Body.text "Forbidden"⟩ ∧
    userRoute "secret" 1 (some ("Bearer " ++ jwtEncode (jwtSign "secret" 0 1 "user"))) =
      ⟨200, Body.text "Welcome User"⟩ :=
  C6_non_admin_token_roles "secret" 1 (jwtSign "secret" 0 1 "user")
    (by decide) (by decide) rfl (by decide) (by decide)

/-- C7: registering an email that is already stored fails — whatever
password is supplied — with the 400 "User already exists" ConflictError
response (distinct from the validation-failure response), and the store,
the existing row included, is returned unchanged. -/
theorem C7_duplicate_email_conflict (st : ServerState) (e p : String)
    (r : Option String)
    (he : e ≠ "") (hp : p ≠ "") (hdup : (findUnique st e).isSome = true) :
    register st (some e) (some p) r =
      (st, ⟨400, .text "User already exists"⟩, [.hashPassword, .storeCreate]) ∧
    (⟨400, .text "User already exists"⟩ : Response) ≠
      ⟨400, .text "Email and password are required"⟩ := by
  refine ⟨?_, by decide⟩
  unfold register
  rw [isFalsy_some_false e he, isFalsy_some_false p hp]
  simp [hdup]

/-- C7 witness: re-registering "a@x.com" (with a different password) on a
store already holding it changes nothing and answers the conflict
response. -/
theorem C7_witness :
    register (register initialState (some "a@x.com") (some "pw1") none).1
        (some "a@x.com") (some "pw2") none =
      ((register initialState (some "a@x.com") (some "pw1") none).1,
       ⟨400, Body.text "User already exists"⟩, [.hashPassword, .storeCreate]) ∧
    (⟨400, Body.text "User already exists"⟩ : Response) ≠
      ⟨400, Body.text "Email and password are required"⟩ :=
  C7_duplicate_email_conflict _ "a@x.com" "pw2" none
    (by decide) (by decide) (by decide)

/-- C8: a successful login issues exactly the token signed over the found
user's id and role with `iat = now` and a 1-hour expiry `exp = now +
3600`; presented as a bearer header, the middleware accepts that token at
every verification time strictly before `exp` — attaching its claims —
and rejects it with 403 from `exp` on.  `authenticateJWT` takes no store
argument: validity is a function of the secret, the clock and the token
alone. -/
theorem C8_login_token_one_hour_expiry
    (st : ServerState) (secret : String) (now : Nat) (e p : String) (u : User)
    (hfound : findUnique st e = some u) (hcmp : bcryptCompare p u.password = true)
    (hdot : ∀ ch ∈ u.role.data, ch ≠ '.')
    (hspace : ∀ ch ∈ u.role.data, ch ≠ ' ') :
    (login st secret now (some e) (some p)).1 =
      .ok ⟨200, .jsonFields [("token", jwtEncode (jwtSign secret now u.id u.role))]⟩ ∧
    (jwtSign secret now u.id u.role).payload.iat = now ∧
    (jwtSign secret now u.id u.role).payload.exp = now + 3600 ∧
    (∀ v, v < now + 3600 →
      authenticateJWT secret v
          (some ("Bearer " ++ jwtEncode (jwtSign secret now u.id u.role))) =
        .proceeded ⟨u.id, u.role, now, now + 3600⟩) ∧
    (∀ v, now + 3600 ≤ v →
      authenticateJWT secret v
          (some ("Bearer " ++ jwtEncode (jwtSign secret now u.id u.role))) =
        .halted ⟨403, .text "Forbidden"⟩) := by
  refine ⟨by rw [login_success st secret now e p u hfound hcmp], rfl, rfl, ?_, ?_⟩
  · intro v hv
    rw [authenticateJWT_signed secret now v u.id u.role hdot hspace, if_neg (by omega)]
  · intro v hv
    rw [authenticateJWT_signed secret now v u.id u.role hdot hspace, if_pos hv]

/-- C8 witness: the token issued to the stored user "a@x.com" at time 0
is accepted at time 3599 and rejected at time 3600. -/
theorem C8_witness :
    (login (register initialState (some "a@x.com") (some "pw1") none).1
        "secret" 0 (some "a@x.com") (some "pw1")).1 =
      .ok ⟨200, .jsonFields [("token", jwtEncode (jwtSign "secret" 0 1 "user"))]⟩ ∧
    authenticateJWT "secret" 3599
        (some ("Bearer " ++ jwtEncode (jwtSign "secret" 0 1 "user"))) =
      .proceeded ⟨1, "user", 0, 3600⟩ ∧
    authenticateJWT "secret" 3600
        (some ("Bearer " ++ jwtEncode (jwtSign "secret" 0 1 "user"))) =
      .halted ⟨403, Body.text "Forbidden"⟩ := by
  have h := C8_login_token_one_hour_expiry
    (register initialState (some "a@x.com") (some "pw1") none).1
    "secret" 0 "a@x.com" "pw1"
    ⟨1, "a@x.com", bcryptHash "pw1", "user"⟩ rfl (by decide) (by decide) (by decide)
  exact ⟨h.1, h.2.2.2.1 3599 (by decide), h.2.2.2.2 3600 (by decide)⟩

/-- C9: logout ignores the request and the store entirely: whatever the
header and body, it answers 200 and the state passes through untouched
(there is no server-side token state to invalidate — token verification
never consults the store). -/
theorem C9_logout_unconditional_noop (st : ServerState) (header : Option String)
    (body : List (String × String)) :
    logout st header body = (st, ⟨200, .text "OK"⟩) := rfl

/-- C10: a registration request chooses its own role — any non-empty role
string in the body is stored verbatim, with no authentication required;
in particular a client registering itself with role "admin" logs in to a
token that the admin-only route accepts with 200. -/
theorem C10_self_assigned_admin_role
    (st : ServerState) (e p r : String) (secret : String) (now v : Nat)
    (he : e ≠ "") (hp : p ≠ "") (hr : r ≠ "")
    (hfresh : ∀ u ∈ st.users, u.email ≠ e) (hv : v < now + 3600) :
    findUnique (register st (some e) (some p) (some r)).1 e =
      some ⟨st.nextId, e, bcryptHash p, r⟩ ∧
    (login (register st (some e) (some p) (some "admin")).1 secret now
        (some e) (some p)).1 =
      .ok ⟨200, .jsonFields [("token",
        jwtEncode (jwtSign secret now st.nextId "admin"))]⟩ ∧
    adminRoute secret v
        (some ("Bearer " ++ jwtEncode (jwtSign secret now st.nextId "admin"))) =
      ⟨200, .text "Welcome Admin"⟩ := by
  have hadmin : ("admin" : String) ≠ "" := by decide
  refine ⟨?_, ?_, ?_⟩
  · rw [register_success st e p (some r) he hp hfresh, roleOf_some r hr]
    exact findUnique_after_insert st e _ hfresh rfl
  · rw [register_success st e p (some "admin") he hp hfresh]
    have hfound := findUnique_after_insert st e
      ⟨st.nextId, e, bcryptHash p, roleOf (some "admin")⟩ hfresh rfl
    rw [login_success _ secret now e p _ hfound (by simp [bcryptCompare])]
    rfl
  · have hauth := authenticateJWT_signed secret now v st.nextId "admin"
      (by decide) (by decide)
    rw [if_neg (by omega)] at hauth
    simp [adminRoute, hauth, authorizeAdmin]

/-- C10 witness: registering "a@x.com" with role "admin" on the empty
store, logging in at time 0, and presenting the issued token at time 1. -/
theorem C10_witness :
    findUnique (register initialState (some "a@x.com") (some "pw1")
        (some "admin")).1 "a@x.com" =
      some ⟨1, "a@x.com", bcryptHash "pw1", "admin"⟩ ∧
    (login (register initialState (some "a@x.com") (some "pw1")
        (some "admin")).1 "secret" 0 (some "a@x.com") (some "pw1")).1 =
      .ok ⟨200, .jsonFields [("token", jwtEncode (jwtSign "secret" 0 1 "admin"))]⟩ ∧
    adminRoute "secret" 1
        (some ("Bearer " ++ jwtEncode (jwtSign "secret" 0 1 "admin"))) =
      ⟨200, Body.text "Welcome Admin"⟩ :=
  C10_self_assigned_admin_role initialState "a@x.com" "pw1" "admin" "secret" 0 1
    (by decide) (by decide) (by decide)
    (by intro u hu; exact absurd hu (List.not_mem_nil u)) (by decide)

end EAS
